import Mathlib

/-! Verification of the x402 Rootstock pay-per-API gateway.

Shallow embedding of the repository's core:
* `PayPerAPI` — the Solidity ledger contract (`src/contracts/src/PayPerAPI.sol`),
  modelled as a pure state machine over unbounded naturals with the uint256
  checked-arithmetic overflow guard made explicit where the source performs
  checked addition;
* `verifyPayment`, `generatePaymentInstructions`, `x402PaymentMiddleware` —
  the Express middleware (`backend/middleware/x402Payment.js`);
* `paymentMiddleware` — the declarative route-configuration wrapper
  (`backend/middleware/x402PaymentConfig.js`).

JavaScript string primitives used by the source (`split(' ')`, `trim`,
`toUpperCase`, `BigInt.toString`, viem's `formatEther`/`isAddress`) are
embedded as structurally recursive Lean functions over `List Char` so that
every definition evaluates inside the kernel.
-/

deriving instance DecidableEq for Except

namespace X402

/-! ## JavaScript string primitives -/

/-- JS `String.prototype.split` with a single-character separator: splits on every
occurrence, keeping empty fragments (so `"a  b".split(' ') = ["a","","b"]` and
`"".split(' ') = [""]`). Returns the current fragment plus the completed ones. -/
def splitCharAux (sep : Char) : List Char → List Char × List (List Char)
  | [] => ([], [])
  | c :: cs =>
    let r := splitCharAux sep cs
    if c = sep then ([], r.1 :: r.2) else (c :: r.1, r.2)

/-- JS `s.split(sep)` for a one-character separator `sep`. -/
def jsSplit (s : String) (sep : Char) : List String :=
  let r := splitCharAux sep s.toList
  (r.1 :: r.2).map (fun cs => String.mk cs)

/-- JS `s.trim()`: strips leading and trailing whitespace. -/
def jsTrim (s : String) : String :=
  String.mk (((s.toList.dropWhile Char.isWhitespace).reverse.dropWhile
    Char.isWhitespace).reverse)

/-- JS `s.toUpperCase()` (ASCII range, which covers HTTP methods). -/
def jsToUpper (s : String) : String :=
  String.mk (s.toList.map Char.toUpper)

/-- Hexadecimal digit, either case. -/
def isHexChar (c : Char) : Bool :=
  (('0' ≤ c ∧ c ≤ '9') ∨ ('a' ≤ c ∧ c ≤ 'f') ∨ ('A' ≤ c ∧ c ≤ 'F') : Prop)

/-- viem's `isAddress`: the string must match `^0x[a-fA-F0-9]{40}$`.
(The additional EIP-55 checksum test viem applies to mixed-case input is not
modelled; every address exercised here is single-case.) -/
def isAddress (s : String) : Bool :=
  match s.toList with
  | '0' :: 'x' :: rest => rest.length = 40 && rest.all isHexChar
  | _ => false

/-- Strip trailing `'0'` characters (the `fraction.replace(/(0+)$/, '')` step
of viem's `formatUnits`). -/
def dropTrailingZeros (cs : List Char) : List Char :=
  (cs.reverse.dropWhile (fun c => c = '0')).reverse

/-- viem `formatUnits(value, decimals)`: renders `value / 10^decimals` as a
decimal string — pad the digit string to `decimals` characters, split into
integer and fraction parts, drop trailing fraction zeros. -/
def formatUnits (value : Nat) (decimals : Nat) : String :=
  let ds := (Nat.repr value).toList
  let ds := List.replicate (decimals - ds.length) '0' ++ ds
  let integer := ds.take (ds.length - decimals)
  let fraction := dropTrailingZeros (ds.drop (ds.length - decimals))
  String.mk ((if integer.isEmpty then ['0'] else integer) ++
    (if fraction.isEmpty then [] else '.' :: fraction))

/-- viem `formatEther(wei)` = `formatUnits(wei, 18)`. -/
def formatEther (wei : Nat) : String := formatUnits wei 18

/-- Helper `formatRBTC` from `backend/config/rootstock.js`. -/
def formatRBTC (wei : Nat) : String := formatEther wei

/-! ## The PayPerAPI ledger contract (`src/contracts/src/PayPerAPI.sol`)

Addresses are opaque identifiers with decidable equality; `String` suffices.
`uint256` values are naturals; Solidity 0.8 checked addition reverts at
`2^256`, which the `pay` model makes explicit. -/

/-- The uint256 modulus: checked arithmetic reverts at this bound. -/
def U256 : Nat := 2 ^ 256

/-- On-chain state of one deployed `PayPerAPI` contract.
`contractBalance` is `address(this).balance` (the RBTC the contract holds). -/
structure ContractState where
  pricePerRequest : Nat
  owner : String
  paymentBalances : String → Nat
  contractBalance : Nat

/-- Events the contract emits. -/
inductive Event where
  | paymentReceived (payer : String) (amount : Nat) (newBalance : Nat)
  | fundsWithdrawn (recipient : String) (amount : Nat)
deriving DecidableEq

namespace ContractState

/-- The constructor: `require(_pricePerRequest > 0)`; sets price and owner,
balances start empty. -/
def construct (price : Nat) (sender : String) : Except String ContractState :=
  if price > 0 then
    .ok { pricePerRequest := price, owner := sender,
          paymentBalances := fun _ => 0, contractBalance := 0 }
  else .error "Price must be greater than zero"

/-- Function `pay()`: `require(msg.value > 0)`, then
`paymentBalances[msg.sender] += msg.value` (checked uint256 addition) and
`emit PaymentReceived(msg.sender, msg.value, paymentBalances[msg.sender])`.
The transferred value also raises `address(this).balance`. -/
def pay (st : ContractState) (sender : String) (value : Nat) :
    Except String (ContractState × Event) :=
  if value = 0 then .error "Payment amount must be greater than zero"
  else if st.paymentBalances sender + value ≥ U256 then
    .error "arithmetic overflow"
  else
    let newBalance := st.paymentBalances sender + value
    .ok ({ st with
            paymentBalances := fun a =>
              if a = sender then newBalance else st.paymentBalances a,
            contractBalance := st.contractBalance + value },
         .paymentReceived sender value newBalance)

/-- View `hasPaid(payer)`: `paymentBalances[payer] >= pricePerRequest`. -/
def hasPaid (st : ContractState) (payer : String) : Bool :=
  st.paymentBalances payer ≥ st.pricePerRequest

/-- View `getPaymentBalance(payer)`. -/
def getPaymentBalance (st : ContractState) (payer : String) : Nat :=
  st.paymentBalances payer

/-- View `getAvailableRequests(payer)`: `paymentBalances[payer] / pricePerRequest`
(EVM integer division; `pricePerRequest > 0` is guaranteed by the
constructor). -/
def getAvailableRequests (st : ContractState) (payer : String) : Nat :=
  st.paymentBalances payer / st.pricePerRequest

/-- Function `deductPayment(payer, amount)`: owner-only, requires
`paymentBalances[payer] >= amount`, then checked subtraction. -/
def deductPayment (st : ContractState) (sender payer : String) (amount : Nat) :
    Except String ContractState :=
  if sender ≠ st.owner then .error "Only owner can deduct payments"
  else if st.paymentBalances payer < amount then .error "Insufficient balance"
  else
    .ok { st with
          paymentBalances := fun a =>
            if a = payer then st.paymentBalances payer - amount
            else st.paymentBalances a }

/-- Function `withdraw()`: owner-only, requires a positive held balance, sends the whole
balance to the owner by a low-level call (`callOk` is that call's success flag;
`require(success)` reverts otherwise) and emits `FundsWithdrawn`. -/
def withdraw (st : ContractState) (sender : String) (callOk : Bool) :
    Except String (ContractState × Event) :=
  if sender ≠ st.owner then .error "Only owner can withdraw"
  else if st.contractBalance = 0 then .error "No funds to withdraw"
  else if !callOk then .error "Withdrawal failed"
  else
    .ok ({ st with contractBalance := 0 },
         .fundsWithdrawn st.owner st.contractBalance)

/-- View `getContractBalance()`. -/
def getContractBalance (st : ContractState) : Nat := st.contractBalance

/-- Chain state after a `pay` transaction: a reverted transaction leaves the
state unchanged. -/
def payRun (st : ContractState) (sender : String) (value : Nat) :
    ContractState :=
  match st.pay sender value with
  | .ok (st', _) => st'
  | .error _ => st

/-- Chain state after a `deductPayment` transaction: a reverted transaction
leaves the state unchanged. -/
def deductRun (st : ContractState) (sender payer : String) (amount : Nat) :
    ContractState :=
  match st.deductPayment sender payer amount with
  | .ok st' => st'
  | .error _ => st

end ContractState

/-! ## Payment verification (`backend/middleware/x402Payment.js`) -/

/-- The object `verifyPayment` resolves with:
`{hasPaid, balance, availableRequests, pricePerRequest}`. -/
structure VerificationResult where
  hasPaid : Bool
  balance : Nat
  availableRequests : Nat
  pricePerRequest : Nat
deriving DecidableEq

/-- The ledger read surface `verifyPayment` consumes: the four
`publicClient.readContract` calls, each an independent network round trip that
either yields a value or rejects with an error message. -/
structure Ledger where
  readHasPaid : String → Except String Bool
  readPaymentBalance : String → Except String Nat
  readAvailableRequests : String → Except String Nat
  readPricePerRequest : Except String Nat

/-- Function `verifyPayment(walletAddress)`: local `isAddress` format check (throwing
`Invalid wallet address format`), then the four contract reads combined with
`Promise.all` — if any read rejects the whole verification rejects with that
read's error (fail-fast), otherwise the result object is assembled. -/
def verifyPayment (walletAddress : String) (ledger : Ledger) :
    Except String VerificationResult :=
  if !isAddress walletAddress then .error "Invalid wallet address format"
  else
    match ledger.readHasPaid walletAddress,
          ledger.readPaymentBalance walletAddress,
          ledger.readAvailableRequests walletAddress,
          ledger.readPricePerRequest with
    | .ok hp, .ok bal, .ok avail, .ok price => .ok ⟨hp, bal, avail, price⟩
    | .error c, _, _, _ => .error c
    | _, .error c, _, _ => .error c
    | _, _, .error c, _ => .error c
    | _, _, _, .error c => .error c

/-! ### The x402 payment-instructions payload -/

structure NetworkInfo where
  chainId : Nat
  name : String
  currency : String
deriving DecidableEq

structure AbiItem where
  inputs : List String
  name : String
  outputs : List String
  stateMutability : String
  typ : String
deriving DecidableEq

/-- The `contract` block; `fn` is the JSON field named `function`. -/
structure ContractInfo where
  address : String
  fn : String
  abi : List AbiItem
deriving DecidableEq

structure AmountInfo where
  value : String
  formatted : String
  currency : String
deriving DecidableEq

structure StepsInfo where
  description : String
  steps : List String
deriving DecidableEq

structure PaymentBlock where
  network : NetworkInfo
  contract : ContractInfo
  amount : AmountInfo
  instructions : StepsInfo
deriving DecidableEq

structure MetadataBlock where
  standard : String
  version : String
  endpoint : String
deriving DecidableEq

/-- Return value of `generatePaymentInstructions`: the `payment` block plus
the `metadata` block, spread into the 402 response body. -/
structure PaymentInstructions where
  payment : PaymentBlock
  metadata : MetadataBlock
deriving DecidableEq

/-- Function `generatePaymentInstructions(pricePerRequest)` — a pure function of the
price and the configured contract address. -/
def generatePaymentInstructions (pricePerRequest : Nat)
    (contractAddress : String) : PaymentInstructions :=
  { payment :=
      { network := { chainId := 31, name := "Rootstock Testnet",
                     currency := "RBTC" },
        contract := { address := contractAddress, fn := "pay",
                      abi := [⟨[], "pay", [], "payable", "function"⟩] },
        amount := { value := Nat.repr pricePerRequest,
                    formatted := formatRBTC pricePerRequest,
                    currency := "RBTC" },
        instructions :=
          { description := "Send RBTC payment to the PayPerAPI contract",
            steps := ["Call the pay() function on the contract",
                      "Send at least " ++ formatRBTC pricePerRequest ++
                        " RBTC",
                      "Wait for transaction confirmation",
                      "Retry your API request"] } },
    metadata := { standard := "x402", version := "1.0",
                  endpoint := "PayPerAPI on Rootstock" } }

/-! ### The gating middleware -/

/-- The `currentStatus` block of the 402 body. -/
structure CurrentStatus where
  walletAddress : String
  balance : String
  balanceFormatted : String
  hasPaid : Bool
  availableRequests : Nat
deriving DecidableEq

/-- The full HTTP 402 response body. -/
structure PaymentRequiredBody where
  status : Nat
  message : String
  payment : PaymentBlock
  metadata : MetadataBlock
  currentStatus : CurrentStatus
deriving DecidableEq

/-- Bodies of shape `{error, message}` (400 and 500 responses). -/
structure ErrorBody where
  error : String
  message : String
deriving DecidableEq

inductive Body where
  | err (b : ErrorBody)
  | paymentRequired (b : PaymentRequiredBody)
deriving DecidableEq

/-- The `req.paymentInfo` object attached before invoking the downstream handler. -/
structure PaymentInfo where
  walletAddress : String
  balance : String
  availableRequests : Nat
  pricePerRequest : String
deriving DecidableEq

/-- Observable outcome of `x402PaymentMiddleware` on one request: either an
HTTP response is written, or `next()` runs with `req.paymentInfo` attached. -/
inductive GateResult where
  | respond (status : Nat) (body : Body)
  | next (paymentInfo : PaymentInfo)
deriving DecidableEq

/-- The 400 body for a missing `x-wallet-address` header. -/
def missingWalletBody : ErrorBody :=
  ⟨"Missing wallet address",
   "Please include your wallet address in the x-wallet-address header"⟩

/-- Middleware `x402PaymentMiddleware(req, res, next)`: reads
`req.headers['x-wallet-address']` (`none` models an absent header; the JS
falsiness test also fires on the empty string), then runs `verifyPayment` and
dispatches on its outcome. -/
def x402PaymentMiddleware (contractAddress : String)
    (headers : String → Option String) (ledger : Ledger) : GateResult :=
  match headers "x-wallet-address" with
  | none => .respond 400 (.err missingWalletBody)
  | some w =>
    if w = "" then .respond 400 (.err missingWalletBody)
    else
      match verifyPayment w ledger with
      | .error msg =>
          .respond 500 (.err ⟨"Payment verification failed",
            if msg = "" then "Unable to verify payment status" else msg⟩)
      | .ok r =>
          if !r.hasPaid then
            let gi := generatePaymentInstructions r.pricePerRequest
              contractAddress
            .respond 402 (.paymentRequired
              { status := 402, message := "Payment Required",
                payment := gi.payment, metadata := gi.metadata,
                currentStatus := ⟨w, Nat.repr r.balance,
                  formatRBTC r.balance, false, 0⟩ })
          else
            .next ⟨w, Nat.repr r.balance, r.availableRequests,
              Nat.repr r.pricePerRequest⟩

/-! ## Declarative route configuration
(`backend/middleware/x402PaymentConfig.js`) -/

/-- One value of the `routeConfig` object: `accepts` and `description` are
optional (`none` models an absent property). -/
structure RouteConfigEntry where
  accepts : Option (List String)
  description : Option String
deriving DecidableEq

/-- What `routes.set` stores for one configured route. -/
structure RouteInfo where
  method : String
  path : String
  accepts : List String
  description : String
deriving DecidableEq

/-- JS `v || dflt` for a string-typed optional property: absent and `""` are
falsy. -/
def jsOrString (v : Option String) (dflt : String) : String :=
  match v with
  | none => dflt
  | some s => if s = "" then dflt else s

/-- JS `v || dflt` for an array-typed property: only absence is falsy (an
empty array is truthy). -/
def jsOrList (v : Option (List String)) (dflt : List String) : List String :=
  match v with
  | none => dflt
  | some l => l

/-- Parsing `route.split(' ').map(s => s.trim())` destructured as `[method, path]`;
a missing second part is JS `undefined`, rendered as `"undefined"` by the
template literal that builds the key. -/
def parseRoute (route : String) : String × String :=
  let parts := (jsSplit route ' ').map jsTrim
  (parts.headD "", (parts.drop 1).headD "undefined")

/-- The Map key: `` `${method.toUpperCase()} ${path}` ``. -/
def normalizeKey (route : String) : String :=
  let mp := parseRoute route
  jsToUpper mp.1 ++ " " ++ mp.2

/-- The stored route record (method upper-cased, defaults applied). -/
def mkRouteInfo (route : String) (config : RouteConfigEntry) : RouteInfo :=
  let mp := parseRoute route
  { method := jsToUpper mp.1, path := mp.2,
    accepts := jsOrList config.accepts ["rootstock"],
    description := jsOrString config.description "Protected endpoint" }

/-- One `routes.set(key, {...})` step: later entries shadow earlier ones with
the same key (`Map.set` replaces). -/
def addRoute (routes : String → Option RouteInfo)
    (ent : String × RouteConfigEntry) : String → Option RouteInfo :=
  fun k => if k = normalizeKey ent.1 then some (mkRouteInfo ent.1 ent.2)
           else routes k

/-- The `routes` Map built by `paymentMiddleware` from the configuration
entries, in iteration order. -/
def loadRoutes (cfg : List (String × RouteConfigEntry)) :
    String → Option RouteInfo :=
  cfg.foldl addRoute (fun _ => none)

/-- An incoming request as the middleware sees it: `req.method`, `req.path`,
`req.headers`. -/
structure Request where
  method : String
  path : String
  headers : String → Option String

/-- Outcome of the configured middleware on one request: pass through
untouched, or treat the route as restricted — attach `req.routeMetadata` and
run `x402PaymentMiddleware`. -/
inductive GateDecision where
  | passThrough
  | restricted (routeMetadata : RouteInfo) (result : GateResult)
deriving DecidableEq

/-- The closure `paymentMiddleware` returns, abstracted over the built
`routes` table: look up `` `${req.method} ${req.path}` `` and dispatch. -/
def paymentMiddlewareGate (routes : String → Option RouteInfo)
    (contractAddress : String) (req : Request) (ledger : Ledger) :
    GateDecision :=
  match routes (req.method ++ " " ++ req.path) with
  | some rc => .restricted rc
      (x402PaymentMiddleware contractAddress req.headers ledger)
  | none => .passThrough

/-- Function `paymentMiddleware(routeConfig)`: build the table, return the gate. -/
def paymentMiddleware (cfg : List (String × RouteConfigEntry))
    (contractAddress : String) (req : Request) (ledger : Ledger) :
    GateDecision :=
  paymentMiddlewareGate (loadRoutes cfg) contractAddress req ledger

/-- HTTP status of a gate outcome (`none` when the request proceeded). -/
def GateResult.statusOf : GateResult → Option Nat
  | .respond s _ => some s
  | .next _ => none

/-! ## Concrete fixtures used by witnesses -/

/-- A deployed ledger: price 1000 wei, one client credited 2500 wei. -/
def sampleLedgerState : ContractState :=
  { pricePerRequest := 1000, owner := "0xowner",
    paymentBalances := fun _ => 2500, contractBalance := 2500 }

/-- A ledger whose every read fails (node unreachable). -/
def deadLedger : Ledger :=
  { readHasPaid := fun _ => .error "ledger unreachable",
    readPaymentBalance := fun _ => .error "ledger unreachable",
    readAvailableRequests := fun _ => .error "ledger unreachable",
    readPricePerRequest := .error "ledger unreachable" }

/-- A ledger reporting an unpaid client (with a deliberately nonzero
available-requests read, to observe which value the 402 body reports). -/
def unpaidLedger : Ledger :=
  { readHasPaid := fun _ => .ok false,
    readPaymentBalance := fun _ => .ok 400,
    readAvailableRequests := fun _ => .ok 5,
    readPricePerRequest := .ok 1000 }

/-- A well-formed 20-byte hex address. -/
def sampleAddress : String := "0xaaaaaaaaaaaaaaaaaaaaaaaaaaaaaaaaaaaaaaaa"

/-- Headers carrying a well-formed wallet address. -/
def sampleHeaders : String → Option String :=
  fun k => if k = "x-wallet-address" then some sampleAddress else none

/-- Headers carrying a malformed wallet address. -/
def badHeaders : String → Option String :=
  fun k => if k = "x-wallet-address" then some "not-an-address" else none

/-! ## Supporting lemmas -/

lemma pay_zero (st : ContractState) (sender : String) :
    st.pay sender 0 = .error "Payment amount must be greater than zero" := rfl

lemma pay_ok (st : ContractState) (sender : String) (value : Nat)
    (hv : value ≠ 0) (hov : st.paymentBalances sender + value < U256) :
    st.pay sender value = .ok
      ({ st with
          paymentBalances := fun a =>
            if a = sender then st.paymentBalances sender + value
            else st.paymentBalances a,
          contractBalance := st.contractBalance + value },
       .paymentReceived sender value (st.paymentBalances sender + value)) := by
  unfold ContractState.pay
  rw [if_neg hv, if_neg (not_le.mpr hov)]

lemma pay_ok_inv {st st' : ContractState} {sender : String} {value : Nat}
    {e : Event} (h : st.pay sender value = .ok (st', e)) :
    value ≠ 0 ∧ st.paymentBalances sender + value < U256 ∧
    st' = { st with
            paymentBalances := fun a =>
              if a = sender then st.paymentBalances sender + value
              else st.paymentBalances a,
            contractBalance := st.contractBalance + value } ∧
    e = .paymentReceived sender value (st.paymentBalances sender + value) := by
  by_cases hv : value = 0
  · rw [hv, pay_zero] at h
    exact absurd h (by simp)
  by_cases hov : st.paymentBalances sender + value < U256
  · rw [pay_ok st sender value hv hov] at h
    have h2 := Except.ok.inj h
    injection h2 with ha hb
    exact ⟨hv, hov, ha.symm, hb.symm⟩
  · unfold ContractState.pay at h
    rw [if_neg hv, if_pos (not_lt.mp hov)] at h
    exact absurd h (by simp)

lemma deduct_ok_inv {st st' : ContractState} {sender payer : String}
    {amount : Nat} (h : st.deductPayment sender payer amount = .ok st') :
    sender = st.owner ∧ amount ≤ st.paymentBalances payer ∧
    st' = { st with
            paymentBalances := fun a =>
              if a = payer then st.paymentBalances payer - amount
              else st.paymentBalances a } := by
  unfold ContractState.deductPayment at h
  by_cases hs : sender ≠ st.owner
  · rw [if_pos hs] at h
    exact absurd h (by simp)
  · rw [if_neg hs] at h
    push_neg at hs
    by_cases hb : st.paymentBalances payer < amount
    · rw [if_pos hb] at h
      exact absurd h (by simp)
    · rw [if_neg hb] at h
      exact ⟨hs, not_lt.mp hb, (Except.ok.inj h).symm⟩

lemma withdraw_ok_inv {st st' : ContractState} {sender : String}
    {callOk : Bool} {e : Event}
    (h : st.withdraw sender callOk = .ok (st', e)) :
    sender = st.owner ∧ st.contractBalance ≠ 0 ∧ callOk = true ∧
    st' = { st with contractBalance := 0 } ∧
    e = .fundsWithdrawn st.owner st.contractBalance := by
  unfold ContractState.withdraw at h
  by_cases hs : sender ≠ st.owner
  · rw [if_pos hs] at h
    exact absurd h (by simp)
  · rw [if_neg hs] at h
    push_neg at hs
    by_cases hz : st.contractBalance = 0
    · rw [if_pos hz] at h
      exact absurd h (by simp)
    · rw [if_neg hz] at h
      by_cases hc : callOk
      · rw [hc] at h
        simp only [Bool.not_true, if_neg (by simp : ¬ (false = true))] at h
        have h2 := Except.ok.inj h
        injection h2 with ha hb
        exact ⟨hs, hz, hc, ha.symm, hb.symm⟩
      · rw [Bool.not_eq_true] at hc
        rw [hc] at h
        simp at h

/-! ## Claim theorems -/

/-- Claim C1: for every balance `b ≥ 0` and price `p > 0` (positivity is
enforced at contract creation, which fails otherwise), `getAvailableRequests`
returns `⌊b / p⌋`, and `hasPaid` is true exactly when at least one request is
available, equivalently when `b ≥ p`. -/
theorem C1_pricing_invariant (st : ContractState) (payer : String)
    (hp : 0 < st.pricePerRequest) :
    (∀ sender, ContractState.construct 0 sender =
      .error "Price must be greater than zero") ∧
    (∀ q sender, 0 < q →
      ContractState.construct q sender =
        .ok { pricePerRequest := q, owner := sender,
              paymentBalances := fun _ => 0, contractBalance := 0 }) ∧
    st.getAvailableRequests payer =
      st.getPaymentBalance payer / st.pricePerRequest ∧
    (st.hasPaid payer = true ↔ 1 ≤ st.getAvailableRequests payer) ∧
    (st.hasPaid payer = true ↔
      st.pricePerRequest ≤ st.getPaymentBalance payer) := by
  have hiff : st.hasPaid payer = true ↔
      st.pricePerRequest ≤ st.paymentBalances payer := by
    simp [ContractState.hasPaid]
  refine ⟨fun sender => by simp [ContractState.construct],
    fun q sender hq => by simp [ContractState.construct, hq],
    rfl, ?_, hiff⟩
  rw [hiff]
  exact (Nat.one_le_div_iff hp).symm

/-- Witness for C1 at a concrete ledger state (price 1000, balance 2500). -/
theorem C1_witness :
    0 < sampleLedgerState.pricePerRequest ∧
    sampleLedgerState.getAvailableRequests "0xclient" =
      sampleLedgerState.getPaymentBalance "0xclient" /
        sampleLedgerState.pricePerRequest ∧
    (sampleLedgerState.hasPaid "0xclient" = true ↔
      1 ≤ sampleLedgerState.getAvailableRequests "0xclient") :=
  ⟨by decide,
   (C1_pricing_invariant sampleLedgerState "0xclient" (by decide)).2.2.1,
   (C1_pricing_invariant sampleLedgerState "0xclient" (by decide)).2.2.2.1⟩

/-- Claim C7: `pay` fails exactly when the amount is zero (leaving the balance
unchanged), and on success credits exactly the amount to the sender, emits
`PaymentReceived` with `newBalance` equal to the updated balance, and
accumulates across repeated calls. (Stated below the uint256 checked-addition
bound, which is where the source's arithmetic is defined.) -/
theorem C7_pay_spec (st : ContractState) (sender : String) (value : Nat)
    (hov : st.paymentBalances sender + value < U256) :
    ((∃ st' e, st.pay sender value = .ok (st', e)) ↔ 0 < value) ∧
    (value = 0 → st.payRun sender value = st) ∧
    (∀ st' e, st.pay sender value = .ok (st', e) →
      st'.paymentBalances sender = st.paymentBalances sender + value ∧
      (∀ a, a ≠ sender → st'.paymentBalances a = st.paymentBalances a) ∧
      e = .paymentReceived sender value (st'.paymentBalances sender)) ∧
    (∀ v' st' e st'' e',
      st.pay sender value = .ok (st', e) →
      st'.pay sender v' = .ok (st'', e') →
      st''.paymentBalances sender =
        st.paymentBalances sender + value + v') := by
  have hsucc : ∀ (s s' : ContractState) (v : Nat) (e : Event),
      s.pay sender v = .ok (s', e) →
      s'.paymentBalances sender = s.paymentBalances sender + v ∧
      (∀ a, a ≠ sender → s'.paymentBalances a = s.paymentBalances a) ∧
      e = .paymentReceived sender v (s'.paymentBalances sender) := by
    intro s s' v e h
    obtain ⟨hv, hov', hst, he⟩ := pay_ok_inv h
    subst hst
    refine ⟨by simp, fun a ha => by simp [ha], by simp [he]⟩
  refine ⟨⟨?_, ?_⟩, ?_, fun st' e h => hsucc st st' value e h, ?_⟩
  · rintro ⟨st', e, h⟩
    exact Nat.pos_of_ne_zero (pay_ok_inv h).1
  · intro hpos
    exact ⟨_, _, pay_ok st sender value (Nat.pos_iff_ne_zero.mp hpos) hov⟩
  · intro h0
    simp [ContractState.payRun, h0, pay_zero]
  · intro v' st' e st'' e' h1 h2
    have e1 := (hsucc st st' value e h1).1
    have e2 := (hsucc st' st'' v' e' h2).1
    rw [e2, e1]

/-- Witness for C7: paying 2500 twice from a zero balance. -/
theorem C7_witness :
    (ContractState.mk 1000 "0xowner" (fun _ => 0) 0).paymentBalances
        "0xclient" + 2500 < U256 ∧
    ((∃ st' e, (ContractState.mk 1000 "0xowner" (fun _ => 0) 0).pay
        "0xclient" 2500 = .ok (st', e)) ↔ 0 < 2500) :=
  ⟨by norm_num [U256],
   (C7_pay_spec (ContractState.mk 1000 "0xowner" (fun _ => 0) 0)
     "0xclient" 2500 (by norm_num [U256])).1⟩

/-- Claim C8: `deductPayment` fails for any non-owner caller (state, hence the
payer's balance, unchanged), fails when the amount exceeds the payer's
balance, and otherwise decrements the payer's balance by exactly the amount,
so no call drives a balance below zero. -/
theorem C8_deduct_spec (st : ContractState) (sender payer : String)
    (amount : Nat) :
    (sender ≠ st.owner →
      st.deductPayment sender payer amount =
        .error "Only owner can deduct payments" ∧
      st.deductRun sender payer amount = st) ∧
    (st.paymentBalances payer < amount →
      ¬ ∃ st', st.deductPayment sender payer amount = .ok st') ∧
    (∀ st', st.deductPayment sender payer amount = .ok st' →
      st'.paymentBalances payer + amount = st.paymentBalances payer ∧
      (∀ a, a ≠ payer → st'.paymentBalances a = st.paymentBalances a) ∧
      (∀ a, (0 : ℤ) ≤ (st'.paymentBalances a : ℤ))) := by
  refine ⟨?_, ?_, ?_⟩
  · intro hs
    have herr : st.deductPayment sender payer amount =
        .error "Only owner can deduct payments" := by
      unfold ContractState.deductPayment
      rw [if_pos hs]
    exact ⟨herr, by simp [ContractState.deductRun, herr]⟩
  · rintro hb ⟨st', h⟩
    exact absurd (deduct_ok_inv h).2.1 (not_le.mpr hb)
  · intro st' h
    obtain ⟨hs, hb, hst⟩ := deduct_ok_inv h
    subst hst
    refine ⟨by simp [Nat.sub_add_cancel hb], fun a ha => by simp [ha],
      fun a => Int.ofNat_nonneg _⟩

/-- Witness for C8: a non-owner deduction attempt fails and changes nothing;
an owner deduction is covered by the same instantiation's third conjunct. -/
theorem C8_witness :
    ("0xmallory" ≠ sampleLedgerState.owner) ∧
    (sampleLedgerState.deductPayment "0xmallory" "0xclient" 1000 =
        .error "Only owner can deduct payments" ∧
      sampleLedgerState.deductRun "0xmallory" "0xclient" 1000 =
        sampleLedgerState) :=
  ⟨by decide,
   (C8_deduct_spec sampleLedgerState "0xmallory" "0xclient" 1000).1
     (by decide)⟩

/-- Claim C10: a successful `withdraw` transfers the whole held contract
balance to the owner and leaves every payment-balance entry — and therefore
`getPaymentBalance`, `hasPaid` and `getAvailableRequests` for every
identity — exactly as before. -/
theorem C10_withdraw_frame (st st' : ContractState) (sender : String)
    (callOk : Bool) (e : Event)
    (h : st.withdraw sender callOk = .ok (st', e)) :
    e = .fundsWithdrawn st.owner st.contractBalance ∧
    st'.contractBalance = 0 ∧
    st'.pricePerRequest = st.pricePerRequest ∧
    st'.owner = st.owner ∧
    (∀ a, st'.paymentBalances a = st.paymentBalances a ∧
      st'.getPaymentBalance a = st.getPaymentBalance a ∧
      st'.hasPaid a = st.hasPaid a ∧
      st'.getAvailableRequests a = st.getAvailableRequests a) := by
  obtain ⟨hs, hz, hc, hst, he⟩ := withdraw_ok_inv h
  subst hst
  exact ⟨he, rfl, rfl, rfl, fun a => ⟨rfl, rfl, rfl, rfl⟩⟩

/-! ## Route-table lemmas -/

lemma foldl_addRoute (cfg : List (String × RouteConfigEntry))
    (acc : String → Option RouteInfo) (k : String) :
    cfg.foldl addRoute acc k =
      match loadRoutes cfg k with
      | some v => some v
      | none => acc k := by
  induction cfg generalizing acc with
  | nil => simp [loadRoutes]
  | cons ent cfg ih =>
    show cfg.foldl addRoute (addRoute acc ent) k = _
    rw [ih (addRoute acc ent)]
    have hr : loadRoutes (ent :: cfg) k =
        match loadRoutes cfg k with
        | some v => some v
        | none => addRoute (fun _ => none) ent k := by
      show cfg.foldl addRoute (addRoute (fun _ => none) ent) k = _
      rw [ih (addRoute (fun _ => none) ent)]
    rw [hr]
    cases hl : loadRoutes cfg k with
    | some v => rfl
    | none =>
      unfold addRoute
      by_cases hk : k = normalizeKey ent.1 <;> simp [hk]

lemma loadRoutes_append (cfg cfg' : List (String × RouteConfigEntry))
    (k : String) :
    loadRoutes (cfg ++ cfg') k =
      match loadRoutes cfg' k with
      | some v => some v
      | none => loadRoutes cfg k := by
  show (cfg ++ cfg').foldl addRoute (fun _ => none) k = _
  rw [List.foldl_append]
  exact foldl_addRoute cfg' _ k

lemma loadRoutes_self_append (cfg : List (String × RouteConfigEntry))
    (k : String) :
    loadRoutes (cfg ++ cfg) k = loadRoutes cfg k := by
  rw [loadRoutes_append]
  cases hl : loadRoutes cfg k <;> simp [hl]

lemma loadRoutes_append_single (cfg : List (String × RouteConfigEntry))
    (ent : String × RouteConfigEntry) (k : String) :
    loadRoutes (cfg ++ [ent]) k =
      if k = normalizeKey ent.1 then some (mkRouteInfo ent.1 ent.2)
      else loadRoutes cfg k := by
  rw [loadRoutes_append]
  by_cases hk : k = normalizeKey ent.1 <;>
    simp [loadRoutes, addRoute, hk]

/-- Witness for C10: the owner withdraws 2500 held wei; the client's credit
and request entitlement survive. -/
theorem C10_witness :
    (sampleLedgerState.withdraw "0xowner" true =
      .ok (ContractState.mk 1000 "0xowner" (fun _ => 2500) 0,
           .fundsWithdrawn "0xowner" 2500)) ∧
    (ContractState.mk 1000 "0xowner" (fun _ => 2500) 0).hasPaid "0xclient" =
      sampleLedgerState.hasPaid "0xclient" ∧
    (ContractState.mk 1000 "0xowner" (fun _ => 2500) 0).getAvailableRequests
        "0xclient" =
      sampleLedgerState.getAvailableRequests "0xclient" :=
  ⟨rfl,
   ((C10_withdraw_frame sampleLedgerState _ "0xowner" true _ rfl).2.2.2.2
     "0xclient").2.2.1,
   ((C10_withdraw_frame sampleLedgerState _ "0xowner" true _ rfl).2.2.2.2
     "0xclient").2.2.2⟩

/-- Claim C2 counterexample: a restricted request whose identity header holds
a shape-invalid address is answered with HTTP 500 (the catch-all
payment-verification-failed handler), not the HTTP 400 the claim states —
even though the rejection is indeed local (the ledger here is unreachable,
yet its failure message never appears). -/
theorem C2_counterexample :
    x402PaymentMiddleware "0xcontract" badHeaders deadLedger =
      .respond 500 (.err ⟨"Payment verification failed",
        "Invalid wallet address format"⟩) ∧
    GateResult.statusOf
        (x402PaymentMiddleware "0xcontract" badHeaders deadLedger) =
      some 500 := by
  constructor <;> decide

/-- Claim C2 as amended: a malformed identity header value fails local format
validation — no ledger read is issued (the outcome is identical for every
ledger) — and the HTTP response is 500 with the format-error message, not
400. -/
theorem C2_amended_invalid_identity (ca : String)
    (headers : String → Option String) (ledger ledger2 : Ledger) (w : String)
    (hw : headers "x-wallet-address" = some w) (hne : w ≠ "")
    (hbad : isAddress w = false) :
    x402PaymentMiddleware ca headers ledger =
      .respond 500 (.err ⟨"Payment verification failed",
        "Invalid wallet address format"⟩) ∧
    x402PaymentMiddleware ca headers ledger =
      x402PaymentMiddleware ca headers ledger2 := by
  have hv : ∀ l : Ledger,
      verifyPayment w l = .error "Invalid wallet address format" := by
    intro l
    simp [verifyPayment, hbad]
  constructor
  · simp [x402PaymentMiddleware, hw, hne, hv ledger]
  · simp [x402PaymentMiddleware, hw, hne, hv ledger, hv ledger2]

/-- Witness for the amended C2 at a concrete malformed address, with two
different ledgers observing the same outcome. -/
theorem C2_witness :
    badHeaders "x-wallet-address" = some "not-an-address" ∧
    isAddress "not-an-address" = false ∧
    x402PaymentMiddleware "0xcontract" badHeaders unpaidLedger =
      x402PaymentMiddleware "0xcontract" badHeaders deadLedger :=
  ⟨by decide, by decide,
   (C2_amended_invalid_identity "0xcontract" badHeaders unpaidLedger
     deadLedger "not-an-address" (by decide) (by decide) (by decide)).2⟩

/-- Claim C3: if any of the four ledger reads fails, verification fails, and
the gate answers HTTP 500 carrying the underlying cause — never the HTTP 402
payment-required response. -/
theorem C3_ledger_failure (ca : String) (headers : String → Option String)
    (ledger : Ledger) (w cause : String)
    (hw : headers "x-wallet-address" = some w) (hne : w ≠ "") :
    (isAddress w = true →
      ((∃ c, ledger.readHasPaid w = .error c) ∨
       (∃ c, ledger.readPaymentBalance w = .error c) ∨
       (∃ c, ledger.readAvailableRequests w = .error c) ∨
       (∃ c, ledger.readPricePerRequest = .error c)) →
      ∃ c, verifyPayment w ledger = .error c) ∧
    (verifyPayment w ledger = .error cause →
      x402PaymentMiddleware ca headers ledger =
        .respond 500 (.err ⟨"Payment verification failed",
          if cause = "" then "Unable to verify payment status" else cause⟩) ∧
      ∀ b, x402PaymentMiddleware ca headers ledger ≠ .respond 402 b) := by
  constructor
  · intro haddr hfail
    cases h1 : ledger.readHasPaid w <;>
      cases h2 : ledger.readPaymentBalance w <;>
        cases h3 : ledger.readAvailableRequests w <;>
          cases h4 : ledger.readPricePerRequest <;>
            simp [verifyPayment, haddr, h1, h2, h3, h4] at hfail ⊢
  · intro hv
    have hmain : x402PaymentMiddleware ca headers ledger =
        .respond 500 (.err ⟨"Payment verification failed",
          if cause = "" then "Unable to verify payment status"
          else cause⟩) := by
      simp [x402PaymentMiddleware, hw, hne, hv]
    refine ⟨hmain, fun b hcontra => ?_⟩
    rw [hmain] at hcontra
    injection hcontra with h5 _
    omega

/-- Witness for C3: an unreachable ledger yields the 500 response with the
read error as the message, for a well-formed address. -/
theorem C3_witness :
    verifyPayment sampleAddress deadLedger = .error "ledger unreachable" ∧
    x402PaymentMiddleware "0xcontract" sampleHeaders deadLedger =
      .respond 500 (.err ⟨"Payment verification failed",
        "ledger unreachable"⟩) :=
  ⟨by decide,
   (((C3_ledger_failure "0xcontract" sampleHeaders deadLedger sampleAddress
       "ledger unreachable" (by decide) (by decide)).2 (by decide)).1).trans
     (by decide)⟩

/-- Claim C4: on a restricted route, an absent or empty identity header is
answered with HTTP 400 and the ledger is never consulted — the outcome is the
same for every ledger. -/
theorem C4_missing_identity (cfg : List (String × RouteConfigEntry))
    (ca : String) (req : Request) (rc : RouteInfo) (ledger ledger2 : Ledger)
    (hroute : loadRoutes cfg (req.method ++ " " ++ req.path) = some rc)
    (hmiss : req.headers "x-wallet-address" = none ∨
             req.headers "x-wallet-address" = some "") :
    paymentMiddleware cfg ca req ledger =
      .restricted rc (.respond 400 (.err missingWalletBody)) ∧
    paymentMiddleware cfg ca req ledger =
      paymentMiddleware cfg ca req ledger2 := by
  have hx : ∀ l : Ledger, x402PaymentMiddleware ca req.headers l =
      .respond 400 (.err missingWalletBody) := by
    intro l
    rcases hmiss with h | h <;> simp [x402PaymentMiddleware, h]
  constructor
  · simp [paymentMiddleware, paymentMiddlewareGate, hroute, hx ledger]
  · simp [paymentMiddleware, paymentMiddlewareGate, hroute, hx ledger,
      hx ledger2]

/-- Witness for C4: a configured route, a request without the header, and two
different ledgers observing the same 400 outcome. -/
theorem C4_witness :
    loadRoutes [("GET /api/data", ⟨none, none⟩)] ("GET" ++ " " ++ "/api/data")
      = some ⟨"GET", "/api/data", ["rootstock"], "Protected endpoint"⟩ ∧
    paymentMiddleware [("GET /api/data", ⟨none, none⟩)] "0xcontract"
        ⟨"GET", "/api/data", fun _ => none⟩ deadLedger =
      .restricted ⟨"GET", "/api/data", ["rootstock"], "Protected endpoint"⟩
        (.respond 400 (.err missingWalletBody)) ∧
    paymentMiddleware [("GET /api/data", ⟨none, none⟩)] "0xcontract"
        ⟨"GET", "/api/data", fun _ => none⟩ deadLedger =
      paymentMiddleware [("GET /api/data", ⟨none, none⟩)] "0xcontract"
        ⟨"GET", "/api/data", fun _ => none⟩ unpaidLedger :=
  ⟨by decide,
   (C4_missing_identity [("GET /api/data", ⟨none, none⟩)] "0xcontract"
     ⟨"GET", "/api/data", fun _ => none⟩
     ⟨"GET", "/api/data", ["rootstock"], "Protected endpoint"⟩
     deadLedger unpaidLedger (by decide) (Or.inl rfl)).1,
   (C4_missing_identity [("GET /api/data", ⟨none, none⟩)] "0xcontract"
     ⟨"GET", "/api/data", fun _ => none⟩
     ⟨"GET", "/api/data", ["rootstock"], "Protected endpoint"⟩
     deadLedger unpaidLedger (by decide) (Or.inl rfl)).2⟩

/-- Claim C5: gating looks up the exact pair — request method as delivered
(HTTP methods arrive upper-cased) against the configured method normalized to
upper case, path case-sensitively — so a configured entry differing from the
request method only in letter case still matches as restricted, and an
unmatched request passes through untouched. -/
theorem C5_route_lookup (cfg : List (String × RouteConfigEntry))
    (r : String) (e : RouteConfigEntry) (m p : String) (req : Request)
    (ledger : Ledger) (ca : String)
    (hparse : parseRoute r = (m, p))
    (hcase : jsToUpper req.method = jsToUpper m)
    (hupper : jsToUpper req.method = req.method)
    (hpath : req.path = p) :
    paymentMiddleware (cfg ++ [(r, e)]) ca req ledger =
      .restricted (mkRouteInfo r e)
        (x402PaymentMiddleware ca req.headers ledger) ∧
    (∀ (cfg' : List (String × RouteConfigEntry)) (req' : Request),
      loadRoutes cfg' (req'.method ++ " " ++ req'.path) = none →
      paymentMiddleware cfg' ca req' ledger = .passThrough) := by
  constructor
  · have hkey : req.method ++ " " ++ req.path = normalizeKey r := by
      simp only [normalizeKey, hparse]
      rw [hpath, ← hcase, hupper]
    have hload : loadRoutes (cfg ++ [(r, e)])
        (req.method ++ " " ++ req.path) = some (mkRouteInfo r e) := by
      rw [loadRoutes_append_single, if_pos hkey]
    simp [paymentMiddleware, paymentMiddlewareGate, hload]
  · intro cfg' req' hnone
    simp [paymentMiddleware, paymentMiddlewareGate, hnone]

/-- Witness for C5: configuring `"get /api/weather"` restricts
`GET /api/weather`. -/
theorem C5_witness :
    parseRoute "get /api/weather" = ("get", "/api/weather") ∧
    jsToUpper "GET" = jsToUpper "get" ∧
    jsToUpper "GET" = "GET" ∧
    paymentMiddleware [("get /api/weather", ⟨none, none⟩)] "0xcontract"
        ⟨"GET", "/api/weather", fun _ => none⟩ deadLedger =
      .restricted (mkRouteInfo "get /api/weather" ⟨none, none⟩)
        (x402PaymentMiddleware "0xcontract"
          (Request.mk "GET" "/api/weather" (fun _ => none)).headers
          deadLedger) :=
  ⟨by decide, by decide, by decide,
   (C5_route_lookup [] "get /api/weather" ⟨none, none⟩ "get" "/api/weather"
     ⟨"GET", "/api/weather", fun _ => none⟩ deadLedger "0xcontract"
     (by decide) (by decide) (by decide) rfl).1⟩

/-- Claim C6: when verification succeeds with `hasPaid = false`, the 402
body's `currentStatus` reports `hasPaid:false` and the literal
`availableRequests:0` (not the separately read available-requests value),
next to the caller's identity and balance snapshot, and the rendered
instructions' `amount.value` is the decimal string of `pricePerRequest`. -/
theorem C6_unpaid_response (ca : String) (headers : String → Option String)
    (ledger : Ledger) (w : String) (r : VerificationResult)
    (hw : headers "x-wallet-address" = some w) (hne : w ≠ "")
    (hv : verifyPayment w ledger = .ok r) (hp : r.hasPaid = false) :
    x402PaymentMiddleware ca headers ledger = .respond 402 (.paymentRequired
      { status := 402, message := "Payment Required",
        payment := (generatePaymentInstructions r.pricePerRequest ca).payment,
        metadata :=
          (generatePaymentInstructions r.pricePerRequest ca).metadata,
        currentStatus :=
          { walletAddress := w, balance := Nat.repr r.balance,
            balanceFormatted := formatRBTC r.balance, hasPaid := false,
            availableRequests := 0 } }) ∧
    (generatePaymentInstructions r.pricePerRequest ca).payment.amount.value =
      Nat.repr r.pricePerRequest := by
  constructor
  · simp [x402PaymentMiddleware, hw, hne, hv, hp]
  · rfl

/-- Witness for C6: the ledger's available-requests read returns 5, yet the
402 body reports the literal 0. -/
theorem C6_witness :
    verifyPayment sampleAddress unpaidLedger =
      .ok ⟨false, 400, 5, 1000⟩ ∧
    unpaidLedger.readAvailableRequests sampleAddress = .ok 5 ∧
    x402PaymentMiddleware "0xcontract" sampleHeaders unpaidLedger =
      .respond 402 (.paymentRequired
        { status := 402, message := "Payment Required",
          payment := (generatePaymentInstructions 1000 "0xcontract").payment,
          metadata :=
            (generatePaymentInstructions 1000 "0xcontract").metadata,
          currentStatus :=
            { walletAddress := sampleAddress, balance := Nat.repr 400,
              balanceFormatted := formatRBTC 400, hasPaid := false,
              availableRequests := 0 } }) :=
  ⟨by decide, by decide,
   (C6_unpaid_response "0xcontract" sampleHeaders unpaidLedger sampleAddress
     ⟨false, 400, 5, 1000⟩ (by decide) (by decide) (by decide) rfl).1⟩

/-- Claim C9: when two configured entries normalize to the same route key,
the later entry's policy is the one the table keeps, and loading the same
configuration twice yields the same gating decision for every request. -/
theorem C9_last_write_wins (l : List (String × RouteConfigEntry))
    (r1 r2 : String) (e1 e2 : RouteConfigEntry)
    (_hmem : (r1, e1) ∈ l) (hkey : normalizeKey r1 = normalizeKey r2) :
    loadRoutes (l ++ [(r2, e2)]) (normalizeKey r1) =
      some (mkRouteInfo r2 e2) ∧
    (∀ (cfg : List (String × RouteConfigEntry)) (ca : String)
      (req : Request) (ledger : Ledger),
      paymentMiddleware (cfg ++ cfg) ca req ledger =
        paymentMiddleware cfg ca req ledger) := by
  constructor
  · rw [loadRoutes_append_single, if_pos hkey]
  · intro cfg ca req ledger
    simp [paymentMiddleware, paymentMiddlewareGate, loadRoutes_self_append]

/-- Witness for C9: `"GET /api/data"` configured twice (once as
`"get /api/data"`); the later description wins. -/
theorem C9_witness :
    (("GET /api/data", (⟨none, none⟩ : RouteConfigEntry)) ∈
      [("GET /api/data", (⟨none, none⟩ : RouteConfigEntry))]) ∧
    normalizeKey "GET /api/data" = normalizeKey "get /api/data" ∧
    loadRoutes ([("GET /api/data", ⟨none, none⟩)] ++
        [("get /api/data", ⟨none, some "v2"⟩)])
      (normalizeKey "GET /api/data") =
      some (mkRouteInfo "get /api/data" ⟨none, some "v2"⟩) :=
  ⟨by decide, by decide,
   (C9_last_write_wins [("GET /api/data", ⟨none, none⟩)] "GET /api/data"
     "get /api/data" ⟨none, none⟩ ⟨none, some "v2"⟩ (by decide)
     (by decide)).1⟩

end X402
